import Mathlib

/-!
Verification of the UniFi collector of `home-lab-exporter`
(`pkg/collector/unifi.go`), shallowly embedded in Lean.

Numeric readings (Go `float64` values carried in `unifi.FlexInt.Val`)
are modelled as rationals; the textual form returned by the upstream
library's `String()` methods (`FlexInt.Txt`, `FlexBool.Txt`) is carried
as an opaque string field.
-/

namespace HomeLab

/-- `unifi.FlexInt`: a numeric value plus its textual form
(`String()` returns the text). -/
structure FlexInt where
  val : ℚ
  txt : String
deriving DecidableEq, Repr

/-- `unifi.FlexBool`: a boolean value plus its textual form. -/
structure FlexBool where
  val : Bool
  txt : String
deriving DecidableEq, Repr

/-- `unifi.SystemStats`: the CPU and memory utilisation readings. -/
structure SystemStats where
  cpu : FlexInt
  mem : FlexInt
deriving DecidableEq, Repr

/-- One entry of `unifi.UDM.Temperatures`. -/
structure UTemperature where
  name : String
  ttype : String
  value : ℚ
deriving DecidableEq, Repr

/-- One entry of a device's `PortTable` (the fields the collector reads). -/
structure UPort where
  name : String
  portIdx : FlexInt
  up : FlexBool
  isUplink : FlexBool
  rxPackets : FlexInt
  rxBytes : FlexInt
  rxErrors : FlexInt
  rxDropped : FlexInt
  speed : FlexInt
  txPackets : FlexInt
  txBytes : FlexInt
  txErrors : FlexInt
  txDropped : FlexInt
  sfpFound : FlexBool
  sfpTemperature : FlexInt
deriving DecidableEq, Repr

/-- `d.Stat.Sw` of a `unifi.USW`: the switch-level cumulative counters. -/
structure SwStat where
  rxPackets : FlexInt
  rxBytes : FlexInt
  rxErrors : FlexInt
  rxDropped : FlexInt
  txPackets : FlexInt
  txBytes : FlexInt
  txErrors : FlexInt
  txDropped : FlexInt
  bytes : FlexInt
deriving DecidableEq, Repr

/-- `unifi.UDM` (the fields read by the collector). -/
structure UDM where
  name : String
  siteName : String
  ip : String
  hasTemperature : FlexBool
  temperatures : List UTemperature
  model : String
  systemStats : SystemStats
  portTable : List UPort
deriving DecidableEq, Repr

/-- `unifi.USG` (the fields read by the collector). -/
structure USG where
  name : String
  siteName : String
  ip : String
  model : String
  systemStats : SystemStats
deriving DecidableEq, Repr

/-- `unifi.USW` (the fields read by the collector). -/
structure USW where
  name : String
  siteName : String
  ip : String
  hasTemperature : FlexBool
  generalTemperature : FlexInt
  model : String
  systemStats : SystemStats
  stat : SwStat
  portTable : List UPort
deriving DecidableEq, Repr

/-- `unifi.UAP` (the fields read by the collector). -/
structure UAP where
  name : String
  siteName : String
  ip : String
  model : String
  systemStats : SystemStats
deriving DecidableEq, Repr

/-- `unifi.Site` (opaque to the collector; only cached). -/
structure USite where
  name : String
  id : String
deriving DecidableEq, Repr

/-- `unifi.Client` (opaque to the collector; only cached). -/
structure UClient where
  name : String
  ip : String
deriving DecidableEq, Repr

/-- `UnifiDevices`: the four device-family lists of the cache. -/
structure UnifiDevices where
  udms : List UDM
  usgs : List USG
  usws : List USW
  uaps : List UAP
deriving DecidableEq, Repr

/-- `UnifiData`: the snapshot cached by the collector. -/
structure UnifiData where
  sites : List USite
  devices : UnifiDevices
  clients : List UClient
deriving DecidableEq, Repr

/-- A device wrapped in its family adapter (`udmAdapter`, `usgAdapter`,
`uswAdapter`, `uapAdapter`); the `UnifiDevice` interface values
produced by `UnifiDevices.All`. -/
inductive UnifiDevice where
  | udm (d : UDM)
  | usg (d : USG)
  | usw (d : USW)
  | uap (d : UAP)
deriving DecidableEq, Repr

/-- `udmAdapter.Temperature`: first entry of `Temperatures`, else 0. -/
def udmTemperature (d : UDM) : ℚ :=
  match d.temperatures with
  | t :: _ => t.value
  | [] => 0

/-- `udmAdapter.CPUUsage`: negative raw readings are clamped to 0. -/
def udmCPUUsage (d : UDM) : ℚ :=
  if d.systemStats.cpu.val < 0 then 0 else d.systemStats.cpu.val

/-- `udmAdapter.MEMUsage`. -/
def udmMEMUsage (d : UDM) : ℚ :=
  if d.systemStats.mem.val < 0 then 0 else d.systemStats.mem.val

/-- `usgAdapter.CPUUsage`. -/
def usgCPUUsage (d : USG) : ℚ :=
  if d.systemStats.cpu.val < 0 then 0 else d.systemStats.cpu.val

/-- `usgAdapter.MEMUsage`. -/
def usgMEMUsage (d : USG) : ℚ :=
  if d.systemStats.mem.val < 0 then 0 else d.systemStats.mem.val

/-- `uswAdapter.CPUUsage`. -/
def uswCPUUsage (d : USW) : ℚ :=
  if d.systemStats.cpu.val < 0 then 0 else d.systemStats.cpu.val

/-- `uswAdapter.MEMUsage`. -/
def uswMEMUsage (d : USW) : ℚ :=
  if d.systemStats.mem.val < 0 then 0 else d.systemStats.mem.val

/-- `uapAdapter.CPUUsage`. -/
def uapCPUUsage (d : UAP) : ℚ :=
  if d.systemStats.cpu.val < 0 then 0 else d.systemStats.cpu.val

/-- `uapAdapter.MEMUsage`. -/
def uapMEMUsage (d : UAP) : ℚ :=
  if d.systemStats.mem.val < 0 then 0 else d.systemStats.mem.val

namespace UnifiDevice

/-- `Name()` of the four adapters. -/
def name : UnifiDevice → String
  | .udm d => d.name
  | .usg d => d.name
  | .usw d => d.name
  | .uap d => d.name

/-- `Site()` of the four adapters. -/
def site : UnifiDevice → String
  | .udm d => d.siteName
  | .usg d => d.siteName
  | .usw d => d.siteName
  | .uap d => d.siteName

/-- `IP()` of the four adapters. -/
def ip : UnifiDevice → String
  | .udm d => d.ip
  | .usg d => d.ip
  | .usw d => d.ip
  | .uap d => d.ip

/-- `HasTemperature()`: UDM and USW report the device flag; USG and UAP
hard-code `false`. -/
def hasTemperature : UnifiDevice → Bool
  | .udm d => d.hasTemperature.val
  | .usg _ => false
  | .usw d => d.hasTemperature.val
  | .uap _ => false

/-- `Temperature()`: UDM takes the first `Temperatures` entry, USW its
`GeneralTemperature`; USG and UAP hard-code 0. -/
def temperature : UnifiDevice → ℚ
  | .udm d => udmTemperature d
  | .usg _ => 0
  | .usw d => d.generalTemperature.val
  | .uap _ => 0

/-- `Model()` of the four adapters. -/
def model : UnifiDevice → String
  | .udm d => d.model
  | .usg d => d.model
  | .usw d => d.model
  | .uap d => d.model

/-- `Type()`: the constant family tag of each adapter. -/
def typ : UnifiDevice → String
  | .udm _ => "UDM"
  | .usg _ => "USG"
  | .usw _ => "USW"
  | .uap _ => "UAP"

/-- `CPUUsage()` of the four adapters. -/
def cpuUsage : UnifiDevice → ℚ
  | .udm d => udmCPUUsage d
  | .usg d => usgCPUUsage d
  | .usw d => uswCPUUsage d
  | .uap d => uapCPUUsage d

/-- `MEMUsage()` of the four adapters. -/
def memUsage : UnifiDevice → ℚ
  | .udm d => udmMEMUsage d
  | .usg d => usgMEMUsage d
  | .usw d => uswMEMUsage d
  | .uap d => uapMEMUsage d

/-- The raw (unclamped) CPU reading underlying `CPUUsage()`. -/
def rawCPU : UnifiDevice → ℚ
  | .udm d => d.systemStats.cpu.val
  | .usg d => d.systemStats.cpu.val
  | .usw d => d.systemStats.cpu.val
  | .uap d => d.systemStats.cpu.val

/-- The raw (unclamped) memory reading underlying `MEMUsage()`. -/
def rawMEM : UnifiDevice → ℚ
  | .udm d => d.systemStats.mem.val
  | .usg d => d.systemStats.mem.val
  | .usw d => d.systemStats.mem.val
  | .uap d => d.systemStats.mem.val

end UnifiDevice

/-- `UnifiDevices.All()`: the UDMs, then USGs, then USWs, then UAPs,
each list in fetch order, wrapped in their adapters. -/
def UnifiDevices.all (d : UnifiDevices) : List UnifiDevice :=
  d.udms.map UnifiDevice.udm ++ d.usgs.map UnifiDevice.usg ++
    d.usws.map UnifiDevice.usw ++ d.uaps.map UnifiDevice.uap

/-! ### The metric instruments

A Prometheus `GaugeVec`/`CounterVec` holds one child per label tuple;
`WithLabelValues(...).Set v` replaces the child's value,
`WithLabelValues(...).Add v` adds to it (a fresh child starts at 0),
and `Reset()` deletes all children.  Each vector is modelled as an
association list from the label tuple to the current value. -/

/-- One metric vector: label tuple to current value, one entry per tuple. -/
abbrev LMap := List (List String × ℚ)

/-- The value of the child with the given label tuple, if it exists. -/
def lookupVal : LMap → List String → Option ℚ
  | [], _ => none
  | kv :: rest, k => if kv.1 = k then some kv.2 else lookupVal rest k

/-- `WithLabelValues(k...).Set v`: replace the child's value, creating
the child if absent. -/
def setVal : LMap → List String → ℚ → LMap
  | [], k, v => [(k, v)]
  | kv :: rest, k, v => if kv.1 = k then (k, v) :: rest else kv :: setVal rest k v

/-- `WithLabelValues(k...).Add v`: add to the child's value, creating
the child at `v` if absent. -/
def addVal : LMap → List String → ℚ → LMap
  | [], k, v => [(k, v)]
  | kv :: rest, k, v => if kv.1 = k then (k, kv.2 + v) :: rest else kv :: addVal rest k v

/-- The metric vectors of `UniFiCollector`. -/
structure Metrics where
  deviceTemp : LMap
  deviceCPU : LMap
  deviceMem : LMap
  swRXPackets : LMap
  swRXBytes : LMap
  swRXErrors : LMap
  swRXDropped : LMap
  swTXPackets : LMap
  swTXBytes : LMap
  swTXErrors : LMap
  swTXDropped : LMap
  swBytes : LMap
  pRXPackets : LMap
  pRXBytes : LMap
  pRXErrors : LMap
  pRXDropped : LMap
  pSpeed : LMap
  pTXPackets : LMap
  pTXBytes : LMap
  pTXErrors : LMap
  pTXDropped : LMap
  pSFPTemp : LMap
deriving DecidableEq, Repr

/-- `resetAll`: `Reset()` every vector, deleting all children. -/
def resetAll (_ : Metrics) : Metrics :=
  { deviceTemp := [], deviceCPU := [], deviceMem := []
    swRXPackets := [], swRXBytes := [], swRXErrors := [], swRXDropped := []
    swTXPackets := [], swTXBytes := [], swTXErrors := [], swTXDropped := []
    swBytes := []
    pRXPackets := [], pRXBytes := [], pRXErrors := [], pRXDropped := []
    pSpeed := []
    pTXPackets := [], pTXBytes := [], pTXErrors := [], pTXDropped := []
    pSFPTemp := [] }

/-- The per-port body of the two port loops in `Collect`: the port
labels extend the device's `labelValues` with name, index, up and
uplink, and the SFP temperature is set only when `SFPFound` holds. -/
def portStep (labelValues : List String) (c : Metrics) (port : UPort) : Metrics :=
  let portLabels := labelValues ++
    [port.name, port.portIdx.txt, port.up.txt, port.isUplink.txt]
  let c := { c with pRXPackets := addVal c.pRXPackets portLabels port.rxPackets.val }
  let c := { c with pRXBytes := addVal c.pRXBytes portLabels port.rxBytes.val }
  let c := { c with pRXErrors := addVal c.pRXErrors portLabels port.rxErrors.val }
  let c := { c with pRXDropped := addVal c.pRXDropped portLabels port.rxDropped.val }
  let c := { c with pSpeed := setVal c.pSpeed portLabels port.speed.val }
  let c := { c with pTXPackets := addVal c.pTXPackets portLabels port.txPackets.val }
  let c := { c with pTXBytes := addVal c.pTXBytes portLabels port.txBytes.val }
  let c := { c with pTXErrors := addVal c.pTXErrors portLabels port.txErrors.val }
  let c := { c with pTXDropped := addVal c.pTXDropped portLabels port.txDropped.val }
  if port.sfpFound.val then
    { c with pSFPTemp := setVal c.pSFPTemp portLabels port.sfpTemperature.val }
  else c

/-- The per-device body of the loop in `Collect`: device gauges are
keyed by `Model()`, the switch counters (USW only) and the port series
(USW and UDM) by `Type()`. -/
def collectDevice (c : Metrics) (dev : UnifiDevice) : Metrics :=
  let labelValues := [dev.typ, dev.site, dev.ip, dev.name]
  let gaugeKey := [dev.model, dev.site, dev.ip, dev.name]
  let c := { c with deviceTemp := setVal c.deviceTemp gaugeKey dev.temperature }
  let c := { c with deviceCPU := setVal c.deviceCPU gaugeKey dev.cpuUsage }
  let c := { c with deviceMem := setVal c.deviceMem gaugeKey dev.memUsage }
  let c :=
    match dev with
    | .usw u =>
      let stat := u.stat
      let c := { c with swRXPackets := addVal c.swRXPackets labelValues stat.rxPackets.val }
      let c := { c with swRXBytes := addVal c.swRXBytes labelValues stat.rxBytes.val }
      let c := { c with swRXErrors := addVal c.swRXErrors labelValues stat.rxErrors.val }
      let c := { c with swRXDropped := addVal c.swRXDropped labelValues stat.rxDropped.val }
      let c := { c with swTXPackets := addVal c.swTXPackets labelValues stat.txPackets.val }
      let c := { c with swTXBytes := addVal c.swTXBytes labelValues stat.txBytes.val }
      let c := { c with swTXErrors := addVal c.swTXErrors labelValues stat.txErrors.val }
      let c := { c with swTXDropped := addVal c.swTXDropped labelValues stat.txDropped.val }
      let c := { c with swBytes := addVal c.swBytes labelValues stat.bytes.val }
      u.portTable.foldl (portStep labelValues) c
    | _ => c
  match dev with
  | .udm u => u.portTable.foldl (portStep labelValues) c
  | _ => c

/-- `UniFiCollector.Collect`: under the mutex, reset every vector and
repopulate all of them from the cached snapshot, in `All()` order. -/
def collect (c : Metrics) (cache : UnifiData) : Metrics :=
  cache.devices.all.foldl collectDevice (resetAll c)

/-! ### The fetch cycle

`fetch` is embedded over an environment describing what the injected
`UniFiClient` returns during one cycle.  `nil` pointers of the Go
client are `Option.none`; the errors returned by the three data calls
on lines 389-391 are discarded by the source (`_`), so only the
returned values are modelled.  A `nil` result of `GetDevices` makes
the source dereference a nil pointer (`devices.UDMs`), modelled as the
`crash` outcome. -/

/-- The raw `*unifi.Devices` result of `GetDevices`, with possibly-nil
entries in each family list. -/
structure RawDevices where
  udms : List (Option UDM)
  usgs : List (Option USG)
  usws : List (Option USW)
  uaps : List (Option UAP)
deriving DecidableEq, Repr

/-- What the injected client returns during one fetch cycle. -/
structure FetchEnv where
  /-- The probe `GetSites` call on line 382 returns an error. -/
  probeErr : Bool
  /-- The `Login` call returns an error. -/
  loginErr : Bool
  /-- The value returned by the data `GetSites` call (line 389). -/
  sites : List (Option USite)
  /-- The value returned by `GetClients` (line 390). -/
  clients : List (Option UClient)
  /-- The value returned by `GetDevices` (line 391); `none` is a nil pointer. -/
  devices : Option RawDevices
deriving DecidableEq, Repr

/-- A call made on the injected `UniFiClient`, in order. -/
inductive ClientCall where
  | getSites
  | login
  | getClients
  | getDevices
deriving DecidableEq, Repr

/-- The observable outcome of one `fetch` call. -/
inductive FetchOutcome where
  /-- Nil-pointer dereference of the `GetDevices` result (line 409). -/
  | crash
  /-- `fetch` returns an error; the cache holds the given value. -/
  | fetchErr (cache : UnifiData)
  /-- `fetch` returns nil; the cache holds the given value. -/
  | ok (cache : UnifiData)
deriving DecidableEq, Repr

/-- Lines 389-448 of `fetch`: the three data calls, the nil-entry
filtering, and the wholesale cache replacement under the mutex. -/
def fetchBody (env : FetchEnv) (trace : List ClientCall) :
    FetchOutcome × List ClientCall :=
  let trace := trace ++ [ClientCall.getSites, ClientCall.getClients, ClientCall.getDevices]
  match env.devices with
  | none => (FetchOutcome.crash, trace)
  | some devs =>
    let siteVals := env.sites.filterMap id
    let clientVals := env.clients.filterMap id
    let udms := devs.udms.filterMap id
    let usgs := devs.usgs.filterMap id
    let usws := devs.usws.filterMap id
    let uaps := devs.uaps.filterMap id
    (FetchOutcome.ok
      { sites := siteVals
        devices := { udms := udms, usgs := usgs, usws := usws, uaps := uaps }
        clients := clientVals },
      trace)

/-- `UniFiCollector.fetch`: probe `GetSites`; on probe error perform one
`Login`, and abort the cycle (cache untouched) if the login fails too;
then run the data calls and replace the cache wholesale. -/
def fetch (env : FetchEnv) (old : UnifiData) : FetchOutcome × List ClientCall :=
  if env.probeErr then
    if env.loginErr then
      (FetchOutcome.fetchErr old, [ClientCall.getSites, ClientCall.login])
    else fetchBody env [ClientCall.getSites, ClientCall.login]
  else fetchBody env [ClientCall.getSites]

/-- The snapshot a successful cycle publishes, determined by the cycle's
environment alone (spec-side description of wholesale replacement). -/
def cycleSnapshot (env : FetchEnv) : Option UnifiData :=
  env.devices.map fun devs =>
    { sites := env.sites.filterMap id
      devices :=
        { udms := devs.udms.filterMap id
          usgs := devs.usgs.filterMap id
          usws := devs.usws.filterMap id
          uaps := devs.uaps.filterMap id }
      clients := env.clients.filterMap id }

/-- The effect of one `fetch` call on the cache: a successful cycle
replaces it wholesale, a failed cycle leaves it untouched (a crash
never reaches the cache write). -/
def applyFetch (env : FetchEnv) (cache : UnifiData) : UnifiData :=
  match (fetch env cache).1 with
  | FetchOutcome.ok c => c
  | FetchOutcome.fetchErr c => c
  | FetchOutcome.crash => cache

/-- An event on the shared cache: a refresh-loop write or a scrape read.
Each event is atomic, as both sides run under the collector's mutex. -/
inductive CacheEvent where
  | write (env : FetchEnv)
  | read
deriving DecidableEq, Repr

/-- Run a sequence of cache events from an initial cache; returns the
final cache and the snapshots observed by the reads, in order. -/
def runTrace : List CacheEvent → UnifiData → UnifiData × List UnifiData
  | [], c => (c, [])
  | CacheEvent.write env :: es, c => runTrace es (applyFetch env c)
  | CacheEvent.read :: es, c =>
    let r := runTrace es c
    (r.1, c :: r.2)

/-! ### Label tuples and the entry lists each snapshot generates -/

/-- The `labelValues` tuple of `Collect` (line 265): keyed by `Type()`. -/
def devLabelValues (dev : UnifiDevice) : List String :=
  [dev.typ, dev.site, dev.ip, dev.name]

/-- The tuple the three device gauges are keyed by (lines 266-268):
`Model()` in place of `Type()`. -/
def deviceGaugeKey (dev : UnifiDevice) : List String :=
  [dev.model, dev.site, dev.ip, dev.name]

/-- The per-port extension of the label tuple. -/
def portSuffix (p : UPort) : List String :=
  [p.name, p.portIdx.txt, p.up.txt, p.isUplink.txt]

/-- The tuple a port series is keyed by. -/
def portKey (dev : UnifiDevice) (p : UPort) : List String :=
  devLabelValues dev ++ portSuffix p

/-- The ports `Collect` iterates for a device: the port table of a USW
or UDM, nothing for the other families. -/
def devPorts : UnifiDevice → List UPort
  | .udm d => d.portTable
  | .usw d => d.portTable
  | _ => []

/-- All (device, port) pairs of a device list, in iteration order. -/
def portOccs (devs : List UnifiDevice) : List (UnifiDevice × UPort) :=
  devs.flatMap fun d => (devPorts d).map fun p => (d, p)

/-- The gauge entries one `Collect` produces for a reading `f`. -/
def gaugeEntries (f : UnifiDevice → ℚ) (devs : List UnifiDevice) :
    List (List String × ℚ) :=
  devs.map fun d => (deviceGaugeKey d, f d)

/-- The switch-counter entries one `Collect` produces for a reading `f`
of `Stat.Sw` (USW devices only). -/
def swEntries (f : SwStat → ℚ) (devs : List UnifiDevice) :
    List (List String × ℚ) :=
  devs.filterMap fun d =>
    match d with
    | .usw u => some (devLabelValues d, f u.stat)
    | _ => none

/-- The port entries one `Collect` produces for a port reading `f`. -/
def portEntries (f : UPort → ℚ) (devs : List UnifiDevice) :
    List (List String × ℚ) :=
  devs.flatMap fun d => (devPorts d).map fun p => (portKey d p, f p)

/-- The SFP-temperature entries: only ports whose `SFPFound` flag holds. -/
def sfpEntries (devs : List UnifiDevice) : List (List String × ℚ) :=
  devs.flatMap fun d =>
    ((devPorts d).filter fun p => p.sfpFound.val).map
      fun p => (portKey d p, p.sfpTemperature.val)

/-- Apply a list of `Set` operations in order. -/
def setEntries (m : LMap) (l : List (List String × ℚ)) : LMap :=
  l.foldl (fun acc kv => setVal acc kv.1 kv.2) m

/-- Apply a list of `Add` operations in order. -/
def addEntries (m : LMap) (l : List (List String × ℚ)) : LMap :=
  l.foldl (fun acc kv => addVal acc kv.1 kv.2) m

/-- The combined effect of the port loop on the ten port vectors. -/
def applyPorts (m : Metrics) (lv : List String) (ports : List UPort) : Metrics :=
  { m with
    pRXPackets := addEntries m.pRXPackets (ports.map fun p => (lv ++ portSuffix p, p.rxPackets.val))
    pRXBytes := addEntries m.pRXBytes (ports.map fun p => (lv ++ portSuffix p, p.rxBytes.val))
    pRXErrors := addEntries m.pRXErrors (ports.map fun p => (lv ++ portSuffix p, p.rxErrors.val))
    pRXDropped := addEntries m.pRXDropped (ports.map fun p => (lv ++ portSuffix p, p.rxDropped.val))
    pSpeed := setEntries m.pSpeed (ports.map fun p => (lv ++ portSuffix p, p.speed.val))
    pTXPackets := addEntries m.pTXPackets (ports.map fun p => (lv ++ portSuffix p, p.txPackets.val))
    pTXBytes := addEntries m.pTXBytes (ports.map fun p => (lv ++ portSuffix p, p.txBytes.val))
    pTXErrors := addEntries m.pTXErrors (ports.map fun p => (lv ++ portSuffix p, p.txErrors.val))
    pTXDropped := addEntries m.pTXDropped (ports.map fun p => (lv ++ portSuffix p, p.txDropped.val))
    pSFPTemp := setEntries m.pSFPTemp ((ports.filter fun p => p.sfpFound.val).map
      fun p => (lv ++ portSuffix p, p.sfpTemperature.val)) }

/-- The combined effect of the device loop of `Collect` on all vectors. -/
def applyDevices (m : Metrics) (devs : List UnifiDevice) : Metrics :=
  { deviceTemp := setEntries m.deviceTemp (gaugeEntries UnifiDevice.temperature devs)
    deviceCPU := setEntries m.deviceCPU (gaugeEntries UnifiDevice.cpuUsage devs)
    deviceMem := setEntries m.deviceMem (gaugeEntries UnifiDevice.memUsage devs)
    swRXPackets := addEntries m.swRXPackets (swEntries (fun s => s.rxPackets.val) devs)
    swRXBytes := addEntries m.swRXBytes (swEntries (fun s => s.rxBytes.val) devs)
    swRXErrors := addEntries m.swRXErrors (swEntries (fun s => s.rxErrors.val) devs)
    swRXDropped := addEntries m.swRXDropped (swEntries (fun s => s.rxDropped.val) devs)
    swTXPackets := addEntries m.swTXPackets (swEntries (fun s => s.txPackets.val) devs)
    swTXBytes := addEntries m.swTXBytes (swEntries (fun s => s.txBytes.val) devs)
    swTXErrors := addEntries m.swTXErrors (swEntries (fun s => s.txErrors.val) devs)
    swTXDropped := addEntries m.swTXDropped (swEntries (fun s => s.txDropped.val) devs)
    swBytes := addEntries m.swBytes (swEntries (fun s => s.bytes.val) devs)
    pRXPackets := addEntries m.pRXPackets (portEntries (fun p => p.rxPackets.val) devs)
    pRXBytes := addEntries m.pRXBytes (portEntries (fun p => p.rxBytes.val) devs)
    pRXErrors := addEntries m.pRXErrors (portEntries (fun p => p.rxErrors.val) devs)
    pRXDropped := addEntries m.pRXDropped (portEntries (fun p => p.rxDropped.val) devs)
    pSpeed := setEntries m.pSpeed (portEntries (fun p => p.speed.val) devs)
    pTXPackets := addEntries m.pTXPackets (portEntries (fun p => p.txPackets.val) devs)
    pTXBytes := addEntries m.pTXBytes (portEntries (fun p => p.txBytes.val) devs)
    pTXErrors := addEntries m.pTXErrors (portEntries (fun p => p.txErrors.val) devs)
    pTXDropped := addEntries m.pTXDropped (portEntries (fun p => p.txDropped.val) devs)
    pSFPTemp := setEntries m.pSFPTemp (sfpEntries devs) }

/-! ### Structural lemmas -/

lemma portStep_eq (lv : List String) (c : Metrics) (p : UPort) :
    portStep lv c p = applyPorts c lv [p] := by
  by_cases h : p.sfpFound.val <;>
    simp [portStep, applyPorts, addEntries, setEntries, portSuffix, h]

lemma applyPorts_append (c : Metrics) (lv : List String) (ps qs : List UPort) :
    applyPorts (applyPorts c lv ps) lv qs = applyPorts c lv (ps ++ qs) := by
  simp [applyPorts, addEntries, setEntries, List.foldl_append, List.filter_append]

lemma portFold_eq (lv : List String) (ports : List UPort) :
    ∀ c : Metrics, ports.foldl (portStep lv) c = applyPorts c lv ports := by
  induction ports with
  | nil => intro c; rfl
  | cons p ps ih =>
    intro c
    rw [List.foldl_cons, portStep_eq, ih, applyPorts_append, List.singleton_append]

lemma collectDevice_eq (c : Metrics) (d : UnifiDevice) :
    collectDevice c d = applyDevices c [d] := by
  cases d with
  | usg g => rfl
  | uap a => rfl
  | udm u =>
    simp only [collectDevice]
    rw [portFold_eq]
    simp [applyPorts, applyDevices, gaugeEntries, swEntries, portEntries, sfpEntries,
      setEntries, addEntries, devPorts, portKey, devLabelValues, deviceGaugeKey]
  | usw u =>
    simp only [collectDevice]
    rw [portFold_eq]
    simp [applyPorts, applyDevices, gaugeEntries, swEntries, portEntries, sfpEntries,
      setEntries, addEntries, devPorts, portKey, devLabelValues, deviceGaugeKey]

lemma applyDevices_append (c : Metrics) (ds es : List UnifiDevice) :
    applyDevices (applyDevices c ds) es = applyDevices c (ds ++ es) := by
  simp [applyDevices, gaugeEntries, swEntries, portEntries, sfpEntries,
    setEntries, addEntries, List.foldl_append, List.filterMap_append, List.flatMap_append]

lemma foldl_collectDevice_eq (devs : List UnifiDevice) :
    ∀ c, devs.foldl collectDevice c = applyDevices c devs := by
  induction devs with
  | nil => intro c; rfl
  | cons d ds ih =>
    intro c
    rw [List.foldl_cons, collectDevice_eq, ih, applyDevices_append, List.singleton_append]

/-- `Collect` rebuilds every vector from the snapshot alone: the prior
metric state is erased by `resetAll` and each vector equals the entry
list its snapshot generates. -/
lemma collect_eq (c : Metrics) (cache : UnifiData) :
    collect c cache = applyDevices (resetAll c) cache.devices.all :=
  foldl_collectDevice_eq _ _

/-! ### Lookup lemmas for the vector model -/

lemma setEntries_cons (m : LMap) (kv : List String × ℚ) (l : List (List String × ℚ)) :
    setEntries m (kv :: l) = setEntries (setVal m kv.1 kv.2) l := rfl

lemma addEntries_cons (m : LMap) (kv : List String × ℚ) (l : List (List String × ℚ)) :
    addEntries m (kv :: l) = addEntries (addVal m kv.1 kv.2) l := rfl

lemma lookupVal_setVal (m : LMap) (k : List String) (v : ℚ) (k' : List String) :
    lookupVal (setVal m k v) k' = if k' = k then some v else lookupVal m k' := by
  induction m with
  | nil =>
    by_cases h : k' = k
    · subst h; simp [setVal, lookupVal]
    · have hne : ¬k = k' := fun he => h he.symm
      simp [setVal, lookupVal, h, hne]
  | cons kv rest ih =>
    by_cases h1 : kv.1 = k
    · subst h1
      by_cases h2 : k' = kv.1
      · subst h2; simp [setVal, lookupVal]
      · have hne : ¬kv.1 = k' := fun he => h2 he.symm
        simp [setVal, lookupVal, h2, hne]
    · by_cases h2 : k' = k
      · subst h2
        simp [setVal, lookupVal, h1, ih]
      · by_cases h3 : kv.1 = k'
        · simp [setVal, lookupVal, h1, h2, h3, ih]
        · simp [setVal, lookupVal, h1, h2, h3, ih]

lemma lookupVal_addVal (m : LMap) (k : List String) (v : ℚ) (k' : List String) :
    lookupVal (addVal m k v) k' =
      if k' = k then some ((lookupVal m k).getD 0 + v) else lookupVal m k' := by
  induction m with
  | nil =>
    by_cases h : k' = k
    · subst h; simp [addVal, lookupVal]
    · have hne : ¬k = k' := fun he => h he.symm
      simp [addVal, lookupVal, h, hne]
  | cons kv rest ih =>
    by_cases h1 : kv.1 = k
    · subst h1
      by_cases h2 : k' = kv.1
      · subst h2; simp [addVal, lookupVal]
      · have hne : ¬kv.1 = k' := fun he => h2 he.symm
        simp [addVal, lookupVal, h2, hne]
    · by_cases h2 : k' = k
      · subst h2
        simp [addVal, lookupVal, h1, ih]
      · by_cases h3 : kv.1 = k'
        · simp [addVal, lookupVal, h1, h2, h3, ih]
        · simp [addVal, lookupVal, h1, h2, h3, ih]

lemma setVal_of_not_mem {m : LMap} {k : List String} (v : ℚ)
    (h : k ∉ m.map Prod.fst) : setVal m k v = m ++ [(k, v)] := by
  induction m with
  | nil => rfl
  | cons kv rest ih =>
    rw [List.map_cons] at h
    simp only [List.mem_cons, not_or] at h
    simp [setVal, Ne.symm h.1, ih h.2]

lemma addVal_of_not_mem {m : LMap} {k : List String} (v : ℚ)
    (h : k ∉ m.map Prod.fst) : addVal m k v = m ++ [(k, v)] := by
  induction m with
  | nil => rfl
  | cons kv rest ih =>
    rw [List.map_cons] at h
    simp only [List.mem_cons, not_or] at h
    simp [addVal, Ne.symm h.1, ih h.2]

lemma setEntries_eq_append : ∀ (l : List (List String × ℚ)) (m : LMap),
    (l.map Prod.fst).Nodup → (∀ k ∈ l.map Prod.fst, k ∉ m.map Prod.fst) →
    setEntries m l = m ++ l := by
  intro l
  induction l with
  | nil => intro m _ _; simp [setEntries]
  | cons kv l ih =>
    intro m hnd hfresh
    have h1 : kv.1 ∉ m.map Prod.fst := hfresh kv.1 (by simp)
    have hd : kv.1 ∉ l.map Prod.fst := (List.nodup_cons.mp (by simpa using hnd)).1
    rw [setEntries_cons, setVal_of_not_mem _ h1,
      ih (m ++ [(kv.1, kv.2)]) (List.nodup_cons.mp (by simpa using hnd)).2]
    · simp
    · intro k hk
      simp only [List.map_append, List.mem_append, not_or]
      refine ⟨hfresh k (by simp [hk]), ?_⟩
      simp only [List.map_cons, List.map_nil, List.mem_singleton]
      exact fun he => hd (he ▸ hk)

lemma addEntries_eq_append : ∀ (l : List (List String × ℚ)) (m : LMap),
    (l.map Prod.fst).Nodup → (∀ k ∈ l.map Prod.fst, k ∉ m.map Prod.fst) →
    addEntries m l = m ++ l := by
  intro l
  induction l with
  | nil => intro m _ _; simp [addEntries]
  | cons kv l ih =>
    intro m hnd hfresh
    have h1 : kv.1 ∉ m.map Prod.fst := hfresh kv.1 (by simp)
    have hd : kv.1 ∉ l.map Prod.fst := (List.nodup_cons.mp (by simpa using hnd)).1
    rw [addEntries_cons, addVal_of_not_mem _ h1,
      ih (m ++ [(kv.1, kv.2)]) (List.nodup_cons.mp (by simpa using hnd)).2]
    · simp
    · intro k hk
      simp only [List.map_append, List.mem_append, not_or]
      refine ⟨hfresh k (by simp [hk]), ?_⟩
      simp only [List.map_cons, List.map_nil, List.mem_singleton]
      exact fun he => hd (he ▸ hk)

/-- For an association list with distinct keys, lookup finds each member. -/
lemma lookupVal_of_mem_nodup : ∀ {l : List (List String × ℚ)} {k : List String} {v : ℚ},
    (l.map Prod.fst).Nodup → (k, v) ∈ l → lookupVal l k = some v := by
  intro l
  induction l with
  | nil => intro k v _ h; cases h
  | cons kv rest ih =>
    intro k v hnd hmem
    have hd : kv.1 ∉ rest.map Prod.fst := (List.nodup_cons.mp (by simpa using hnd)).1
    rcases List.mem_cons.mp hmem with h | h
    · rw [← h]
      simp [lookupVal]
    · have hne : kv.1 ≠ k := by
        intro he
        exact hd (he ▸ List.mem_map.mpr ⟨(k, v), h, rfl⟩)
      simp [lookupVal, hne, ih (List.nodup_cons.mp (by simpa using hnd)).2 h]

/-- Entries with other keys do not affect a lookup. -/
lemma lookupVal_setEntries_of_ne : ∀ (l : List (List String × ℚ)) (m : LMap)
    (k : List String), (∀ e ∈ l, e.1 ≠ k) →
    lookupVal (setEntries m l) k = lookupVal m k := by
  intro l
  induction l with
  | nil => intro m k _; rfl
  | cons kv rest ih =>
    intro m k h
    rw [setEntries_cons, ih _ _ (fun e he => h e (List.mem_cons_of_mem _ he)),
      lookupVal_setVal]
    simp [Ne.symm (h kv (List.mem_cons_self _ _))]

lemma lookupVal_addEntries_of_ne : ∀ (l : List (List String × ℚ)) (m : LMap)
    (k : List String), (∀ e ∈ l, e.1 ≠ k) →
    lookupVal (addEntries m l) k = lookupVal m k := by
  intro l
  induction l with
  | nil => intro m k _; rfl
  | cons kv rest ih =>
    intro m k h
    rw [addEntries_cons, ih _ _ (fun e he => h e (List.mem_cons_of_mem _ he)),
      lookupVal_addVal]
    simp [Ne.symm (h kv (List.mem_cons_self _ _))]

/-- With distinct keys, a run of `Set` operations on an empty vector
produces exactly its entry list. -/
lemma setEntries_nil_eq {l : List (List String × ℚ)}
    (hnd : (l.map Prod.fst).Nodup) : setEntries [] l = l := by
  simpa using setEntries_eq_append l [] hnd (by simp)

/-- With distinct keys, a run of `Add` operations on an empty vector
produces exactly its entry list. -/
lemma addEntries_nil_eq {l : List (List String × ℚ)}
    (hnd : (l.map Prod.fst).Nodup) : addEntries [] l = l := by
  simpa using addEntries_eq_append l [] hnd (by simp)

/-! ### Membership of the generated entry lists -/

lemma mem_portOccs {devs : List UnifiDevice} {d : UnifiDevice} {p : UPort} :
    (d, p) ∈ portOccs devs ↔ d ∈ devs ∧ p ∈ devPorts d := by
  constructor
  · intro h
    rcases List.mem_flatMap.mp h with ⟨a, ha, hmem⟩
    rcases List.mem_map.mp hmem with ⟨q, hq, he⟩
    injection he with h1 h2
    subst h1; subst h2
    exact ⟨ha, hq⟩
  · intro h
    exact List.mem_flatMap.mpr ⟨d, h.1, List.mem_map.mpr ⟨p, h.2, rfl⟩⟩

lemma mem_portEntries_intro (f : UPort → ℚ) {devs : List UnifiDevice}
    {d : UnifiDevice} {p : UPort} (h : (d, p) ∈ portOccs devs) :
    (portKey d p, f p) ∈ portEntries f devs := by
  rcases mem_portOccs.mp h with ⟨hd, hp⟩
  exact List.mem_flatMap.mpr ⟨d, hd, List.mem_map.mpr ⟨p, hp, rfl⟩⟩

lemma mem_portEntries_elim {f : UPort → ℚ} {devs : List UnifiDevice}
    {e : List String × ℚ} (h : e ∈ portEntries f devs) :
    ∃ d p, (d, p) ∈ portOccs devs ∧ e = (portKey d p, f p) := by
  rcases List.mem_flatMap.mp h with ⟨a, ha, hmem⟩
  rcases List.mem_map.mp hmem with ⟨q, hq, he⟩
  exact ⟨a, q, mem_portOccs.mpr ⟨ha, hq⟩, he.symm⟩

lemma mem_sfpEntries_intro {devs : List UnifiDevice} {d : UnifiDevice} {p : UPort}
    (h : (d, p) ∈ portOccs devs) (hf : p.sfpFound.val = true) :
    (portKey d p, p.sfpTemperature.val) ∈ sfpEntries devs := by
  rcases mem_portOccs.mp h with ⟨hd, hp⟩
  exact List.mem_flatMap.mpr
    ⟨d, hd, List.mem_map.mpr ⟨p, List.mem_filter.mpr ⟨hp, hf⟩, rfl⟩⟩

lemma mem_sfpEntries_elim {devs : List UnifiDevice} {e : List String × ℚ}
    (h : e ∈ sfpEntries devs) :
    ∃ d p, (d, p) ∈ portOccs devs ∧ p.sfpFound.val = true ∧
      e = (portKey d p, p.sfpTemperature.val) := by
  rcases List.mem_flatMap.mp h with ⟨a, ha, hmem⟩
  rcases List.mem_map.mp hmem with ⟨q, hq, he⟩
  rcases List.mem_filter.mp hq with ⟨hq1, hq2⟩
  exact ⟨a, q, mem_portOccs.mpr ⟨ha, hq1⟩, hq2, he.symm⟩

lemma mem_gaugeEntries_intro (f : UnifiDevice → ℚ) {devs : List UnifiDevice}
    {d : UnifiDevice} (h : d ∈ devs) :
    (deviceGaugeKey d, f d) ∈ gaugeEntries f devs :=
  List.mem_map.mpr ⟨d, h, rfl⟩

lemma mem_gaugeEntries_elim {f : UnifiDevice → ℚ} {devs : List UnifiDevice}
    {e : List String × ℚ} (h : e ∈ gaugeEntries f devs) :
    ∃ d ∈ devs, e = (deviceGaugeKey d, f d) := by
  rcases List.mem_map.mp h with ⟨d, hd, he⟩
  exact ⟨d, hd, he.symm⟩

lemma mem_swEntries_elim {f : SwStat → ℚ} {devs : List UnifiDevice}
    {e : List String × ℚ} (h : e ∈ swEntries f devs) :
    ∃ u : USW, UnifiDevice.usw u ∈ devs ∧
      e = (devLabelValues (UnifiDevice.usw u), f u.stat) := by
  rcases List.mem_filterMap.mp h with ⟨d, hd, he⟩
  cases d with
  | usw u =>
    refine ⟨u, hd, ?_⟩
    simp only [swEntries] at he
    exact (Option.some.inj he).symm
  | udm u => exact Option.noConfusion he
  | usg g => exact Option.noConfusion he
  | uap a => exact Option.noConfusion he

lemma mem_swEntries_intro (f : SwStat → ℚ) {devs : List UnifiDevice} {u : USW}
    (h : UnifiDevice.usw u ∈ devs) :
    (devLabelValues (UnifiDevice.usw u), f u.stat) ∈ swEntries f devs :=
  List.mem_filterMap.mpr ⟨UnifiDevice.usw u, h, rfl⟩

lemma gaugeEntries_keys (f : UnifiDevice → ℚ) (devs : List UnifiDevice) :
    (gaugeEntries f devs).map Prod.fst = devs.map deviceGaugeKey := by
  simp [gaugeEntries, List.map_map, Function.comp_def]

lemma portEntries_keys (f : UPort → ℚ) (devs : List UnifiDevice) :
    (portEntries f devs).map Prod.fst =
      (portOccs devs).map fun dp => portKey dp.1 dp.2 := by
  simp [portEntries, portOccs, List.map_flatMap, List.map_map, Function.comp_def]

lemma flatMap_sublist {α β : Type _} (f g : α → List β) (l : List α)
    (h : ∀ a, (f a).Sublist (g a)) :
    (l.flatMap f).Sublist (l.flatMap g) := by
  induction l with
  | nil => simp
  | cons a l ih => simpa using List.Sublist.append (h a) ih

lemma sfpEntries_sublist (devs : List UnifiDevice) :
    (sfpEntries devs).Sublist (portEntries (fun p => p.sfpTemperature.val) devs) := by
  apply flatMap_sublist
  intro d
  exact List.Sublist.map _ (List.filter_sublist _)

lemma sfpEntries_keys_nodup {devs : List UnifiDevice}
    (h : ((portOccs devs).map fun dp => portKey dp.1 dp.2).Nodup) :
    ((sfpEntries devs).map Prod.fst).Nodup :=
  List.Nodup.sublist (List.Sublist.map _ (sfpEntries_sublist devs))
    (by rw [portEntries_keys]; exact h)

lemma portEntries_keys_nodup {f : UPort → ℚ} {devs : List UnifiDevice}
    (h : ((portOccs devs).map fun dp => portKey dp.1 dp.2).Nodup) :
    ((portEntries f devs).map Prod.fst).Nodup := by
  rw [portEntries_keys]; exact h

lemma gaugeEntries_keys_nodup {f : UnifiDevice → ℚ} {devs : List UnifiDevice}
    (h : (devs.map deviceGaugeKey).Nodup) :
    ((gaugeEntries f devs).map Prod.fst).Nodup := by
  rw [gaugeEntries_keys]; exact h

/-! ### The vectors produced by `Collect`, field by field -/

lemma collect_deviceTemp (c : Metrics) (cache : UnifiData) :
    (collect c cache).deviceTemp =
      setEntries [] (gaugeEntries UnifiDevice.temperature cache.devices.all) := by
  rw [collect_eq]; rfl

lemma collect_deviceCPU (c : Metrics) (cache : UnifiData) :
    (collect c cache).deviceCPU =
      setEntries [] (gaugeEntries UnifiDevice.cpuUsage cache.devices.all) := by
  rw [collect_eq]; rfl

lemma collect_deviceMem (c : Metrics) (cache : UnifiData) :
    (collect c cache).deviceMem =
      setEntries [] (gaugeEntries UnifiDevice.memUsage cache.devices.all) := by
  rw [collect_eq]; rfl

lemma collect_swBytes (c : Metrics) (cache : UnifiData) :
    (collect c cache).swBytes =
      addEntries [] (swEntries (fun s => s.bytes.val) cache.devices.all) := by
  rw [collect_eq]; rfl

lemma collect_pRXPackets (c : Metrics) (cache : UnifiData) :
    (collect c cache).pRXPackets =
      addEntries [] (portEntries (fun p => p.rxPackets.val) cache.devices.all) := by
  rw [collect_eq]; rfl

lemma collect_pRXBytes (c : Metrics) (cache : UnifiData) :
    (collect c cache).pRXBytes =
      addEntries [] (portEntries (fun p => p.rxBytes.val) cache.devices.all) := by
  rw [collect_eq]; rfl

lemma collect_pRXErrors (c : Metrics) (cache : UnifiData) :
    (collect c cache).pRXErrors =
      addEntries [] (portEntries (fun p => p.rxErrors.val) cache.devices.all) := by
  rw [collect_eq]; rfl

lemma collect_pRXDropped (c : Metrics) (cache : UnifiData) :
    (collect c cache).pRXDropped =
      addEntries [] (portEntries (fun p => p.rxDropped.val) cache.devices.all) := by
  rw [collect_eq]; rfl

lemma collect_pSpeed (c : Metrics) (cache : UnifiData) :
    (collect c cache).pSpeed =
      setEntries [] (portEntries (fun p => p.speed.val) cache.devices.all) := by
  rw [collect_eq]; rfl

lemma collect_pTXPackets (c : Metrics) (cache : UnifiData) :
    (collect c cache).pTXPackets =
      addEntries [] (portEntries (fun p => p.txPackets.val) cache.devices.all) := by
  rw [collect_eq]; rfl

lemma collect_pTXBytes (c : Metrics) (cache : UnifiData) :
    (collect c cache).pTXBytes =
      addEntries [] (portEntries (fun p => p.txBytes.val) cache.devices.all) := by
  rw [collect_eq]; rfl

lemma collect_pTXErrors (c : Metrics) (cache : UnifiData) :
    (collect c cache).pTXErrors =
      addEntries [] (portEntries (fun p => p.txErrors.val) cache.devices.all) := by
  rw [collect_eq]; rfl

lemma collect_pTXDropped (c : Metrics) (cache : UnifiData) :
    (collect c cache).pTXDropped =
      addEntries [] (portEntries (fun p => p.txDropped.val) cache.devices.all) := by
  rw [collect_eq]; rfl

lemma collect_pSFPTemp (c : Metrics) (cache : UnifiData) :
    (collect c cache).pSFPTemp = setEntries [] (sfpEntries cache.devices.all) := by
  rw [collect_eq]; rfl

/-! ### The claims -/

/-- C3: for every device of any of the four families (UDM, USG, USW,
UAP) and every raw CPU or memory reading, the adapter's
`CPUUsage()`/`MEMUsage()` accessor returns 0 when the reading is
negative and the reading unchanged when it is non-negative. -/
theorem c3_cpu_mem_clamped (d : UnifiDevice) :
    (d.rawCPU < 0 → d.cpuUsage = 0) ∧ (0 ≤ d.rawCPU → d.cpuUsage = d.rawCPU) ∧
    (d.rawMEM < 0 → d.memUsage = 0) ∧ (0 ≤ d.rawMEM → d.memUsage = d.rawMEM) := by
  have hcpu : d.cpuUsage = if d.rawCPU < 0 then 0 else d.rawCPU := by
    cases d <;> rfl
  have hmem : d.memUsage = if d.rawMEM < 0 then 0 else d.rawMEM := by
    cases d <;> rfl
  refine ⟨fun h => ?_, fun h => ?_, fun h => ?_, fun h => ?_⟩
  · rw [hcpu, if_pos h]
  · rw [hcpu, if_neg (not_lt.mpr h)]
  · rw [hmem, if_pos h]
  · rw [hmem, if_neg (not_lt.mpr h)]

/-- Concrete access point with a negative CPU reading and a
non-negative memory reading. -/
def c3Sample : UnifiDevice :=
  UnifiDevice.uap
    { name := "uap-1", siteName := "default", ip := "192.168.1.2",
      model := "U6-Lite",
      systemStats := { cpu := ⟨-1, "-1"⟩, mem := ⟨20, "20"⟩ } }

theorem c3_cpu_mem_clamped_witness :
    c3Sample.rawCPU < 0 ∧ c3Sample.cpuUsage = 0 ∧
    0 ≤ c3Sample.rawMEM ∧ c3Sample.memUsage = c3Sample.rawMEM := by
  have h := c3_cpu_mem_clamped c3Sample
  refine ⟨by norm_num [c3Sample, UnifiDevice.rawCPU], ?_,
    by norm_num [c3Sample, UnifiDevice.rawMEM], ?_⟩
  · exact h.1 (by norm_num [c3Sample, UnifiDevice.rawCPU])
  · exact h.2.2.2 (by norm_num [c3Sample, UnifiDevice.rawMEM])

/-- C6: in every fetch cycle, a failed probe `GetSites` triggers exactly
one `Login` before the data calls of the same cycle; a failed login
aborts the cycle with the login error and the cache untouched; a
successful probe triggers no `Login`. -/
theorem c6_login_policy (env : FetchEnv) (old : UnifiData) :
    ((fetch env old).2.count ClientCall.login = if env.probeErr then 1 else 0) ∧
    (env.probeErr = true → env.loginErr = true →
      fetch env old = (FetchOutcome.fetchErr old, [ClientCall.getSites, ClientCall.login])) ∧
    (env.probeErr = true → env.loginErr = false →
      (fetch env old).2 =
        [ClientCall.getSites, ClientCall.login,
         ClientCall.getSites, ClientCall.getClients, ClientCall.getDevices]) ∧
    (env.probeErr = false → ClientCall.login ∉ (fetch env old).2) := by
  cases hp : env.probeErr <;> cases hl : env.loginErr <;> cases hd : env.devices <;>
    simp [fetch, fetchBody, hp, hl, hd]

/-- Environment where both the probe and the login fail. -/
def c6Env : FetchEnv :=
  { probeErr := true, loginErr := true, sites := [], clients := [], devices := none }

/-- A previously populated cache. -/
def c6Old : UnifiData :=
  { sites := [⟨"default", "site-id"⟩], devices := ⟨[], [], [], []⟩, clients := [] }

theorem c6_login_policy_witness :
    (fetch c6Env c6Old).2.count ClientCall.login = 1 ∧
    fetch c6Env c6Old = (FetchOutcome.fetchErr c6Old, [ClientCall.getSites, ClientCall.login]) := by
  have h := c6_login_policy c6Env c6Old
  exact ⟨by simpa [c6Env] using h.1, h.2.1 rfl rfl⟩

/-- C8: nil entries in the raw site, client and device lists are
skipped silently: the cycle succeeds and caches exactly the non-nil
entries in order, and inserting a nil entry anywhere in any raw list
changes nothing. -/
theorem c8_nil_entries_skipped (env : FetchEnv) (old : UnifiData) (raw : RawDevices)
    (hdev : env.devices = some raw)
    (hok : ¬(env.probeErr = true ∧ env.loginErr = true)) :
    ((fetch env old).1 = FetchOutcome.ok
      { sites := env.sites.filterMap id
        devices :=
          { udms := raw.udms.filterMap id
            usgs := raw.usgs.filterMap id
            usws := raw.usws.filterMap id
            uaps := raw.uaps.filterMap id }
        clients := env.clients.filterMap id }) ∧
    (∀ l1 l2, fetch { env with sites := l1 ++ none :: l2 } old =
      fetch { env with sites := l1 ++ l2 } old) ∧
    (∀ l1 l2, fetch { env with clients := l1 ++ none :: l2 } old =
      fetch { env with clients := l1 ++ l2 } old) ∧
    (∀ l1 l2, fetch { env with devices := some { raw with udms := l1 ++ none :: l2 } } old =
      fetch { env with devices := some { raw with udms := l1 ++ l2 } } old) ∧
    (∀ l1 l2, fetch { env with devices := some { raw with usgs := l1 ++ none :: l2 } } old =
      fetch { env with devices := some { raw with usgs := l1 ++ l2 } } old) ∧
    (∀ l1 l2, fetch { env with devices := some { raw with usws := l1 ++ none :: l2 } } old =
      fetch { env with devices := some { raw with usws := l1 ++ l2 } } old) ∧
    (∀ l1 l2, fetch { env with devices := some { raw with uaps := l1 ++ none :: l2 } } old =
      fetch { env with devices := some { raw with uaps := l1 ++ l2 } } old) := by
  cases hp : env.probeErr <;> cases hl : env.loginErr <;>
    simp_all [fetch, fetchBody]

/-- One access point surrounded by nil entries in the raw lists. -/
def c8Uap : UAP :=
  { name := "uap-1", siteName := "default", ip := "192.168.1.2",
    model := "U6-Lite", systemStats := { cpu := ⟨10, "10"⟩, mem := ⟨20, "20"⟩ } }

def c8Raw : RawDevices :=
  { udms := [], usgs := [], usws := [], uaps := [none, some c8Uap, none] }

def c8Env : FetchEnv :=
  { probeErr := false, loginErr := false,
    sites := [some ⟨"default", "site-id"⟩, none],
    clients := [none], devices := some c8Raw }

def c8Old : UnifiData :=
  { sites := [], devices := ⟨[], [], [], []⟩, clients := [] }

theorem c8_nil_entries_skipped_witness :
    (fetch c8Env c8Old).1 = FetchOutcome.ok
      { sites := [⟨"default", "site-id"⟩]
        devices := { udms := [], usgs := [], usws := [], uaps := [c8Uap] }
        clients := [] } := by
  have h := c8_nil_entries_skipped c8Env c8Old c8Raw rfl (by simp [c8Env])
  simpa [c8Env, c8Raw] using h.1

/-- One `fetch` either leaves the cache untouched or replaces it with
the complete snapshot of its own cycle. -/
lemma applyFetch_cases (env : FetchEnv) (c : UnifiData) :
    applyFetch env c = c ∨ cycleSnapshot env = some (applyFetch env c) := by
  cases hp : env.probeErr <;> cases hl : env.loginErr <;> cases hd : env.devices <;>
    simp [applyFetch, fetch, fetchBody, cycleSnapshot, hp, hl, hd]

/-- C5: every snapshot observed by a scrape during any interleaving of
refresh-loop writes and scrape reads is either the initial cache or the
wholesale snapshot of one single fetch cycle — never a value mixing
fields from two cycles.  Cache accesses are atomic events here, as both
`fetch` and `Collect` take the collector's mutex around them. -/
theorem c5_snapshot_atomicity : ∀ (events : List CacheEvent) (init r : UnifiData),
    r ∈ (runTrace events init).2 →
    r = init ∨ ∃ env, CacheEvent.write env ∈ events ∧ cycleSnapshot env = some r := by
  intro events
  induction events with
  | nil => intro init r hr; simp [runTrace] at hr
  | cons e es ih =>
    intro init r hr
    cases e with
    | write env =>
      rcases ih (applyFetch env init) r (by simpa [runTrace] using hr) with h | ⟨env', he, hs⟩
      · rcases applyFetch_cases env init with h2 | h2
        · exact Or.inl (h.trans h2)
        · exact Or.inr ⟨env, by simp, by rw [h]; exact h2⟩
      · exact Or.inr ⟨env', by simp [he], hs⟩
    | read =>
      rcases List.mem_cons.mp (by simpa [runTrace] using hr) with h | h
      · exact Or.inl h
      · rcases ih init r h with h2 | ⟨env', he, hs⟩
        · exact Or.inl h2
        · exact Or.inr ⟨env', by simp [he], hs⟩

/-- A successful cycle returning one site. -/
def c5Env : FetchEnv :=
  { probeErr := false, loginErr := false, sites := [some ⟨"default", "site-id"⟩],
    clients := [], devices := some { udms := [], usgs := [], usws := [], uaps := [] } }

def c5Init : UnifiData := { sites := [], devices := ⟨[], [], [], []⟩, clients := [] }

def c5Snap : UnifiData :=
  { sites := [⟨"default", "site-id"⟩], devices := ⟨[], [], [], []⟩, clients := [] }

theorem c5_snapshot_atomicity_witness :
    c5Snap = c5Init ∨
      ∃ env, CacheEvent.write env ∈ [CacheEvent.write c5Env, CacheEvent.read] ∧
        cycleSnapshot env = some c5Snap :=
  c5_snapshot_atomicity [CacheEvent.write c5Env, CacheEvent.read] c5Init c5Snap
    (by decide)

/-- A populated cache from an earlier cycle. -/
def c1OldCache : UnifiData :=
  { sites := [⟨"default", "site-id"⟩]
    devices := ⟨[], [], [], []⟩
    clients := [⟨"client1", "192.168.1.100"⟩] }

/-- Cycle whose `GetDevices` fails: the client returns a nil pointer
(and an error, which line 391 discards). -/
def c1EnvNilDevices : FetchEnv :=
  { probeErr := false, loginErr := false, sites := [some ⟨"default", "site-id"⟩],
    clients := [some ⟨"client1", "192.168.1.100"⟩], devices := none }

/-- Cycle whose `GetClients` fails: the client returns a nil list (and
an error, which line 390 discards). -/
def c1EnvClientsFailed : FetchEnv :=
  { probeErr := false, loginErr := false, sites := [some ⟨"default", "site-id"⟩],
    clients := [], devices := some { udms := [], usgs := [], usws := [], uaps := [] } }

/-- C1 (refuted — the code crashes or overwrites instead): a cycle in
which `GetDevices` fails with a nil result dereferences the nil pointer
on line 409 instead of retaining the cache, and a cycle in which
`GetClients` fails replaces the previously populated cache with one
holding no clients instead of leaving it unchanged. -/
theorem c1_fetch_failure_not_contained :
    (fetch c1EnvNilDevices c1OldCache).1 = FetchOutcome.crash ∧
    (fetch c1EnvClientsFailed c1OldCache).1 = FetchOutcome.ok
      { sites := [⟨"default", "site-id"⟩], devices := ⟨[], [], [], []⟩, clients := [] } ∧
    ({ sites := [⟨"default", "site-id"⟩], devices := ⟨[], [], [], []⟩, clients := [] }
        : UnifiData) ≠ c1OldCache := by
  refine ⟨by decide, by decide, by decide⟩

/-- C2: the series emitted by `Collect` are determined solely by the
current snapshot (the instruments are reset before repopulation), and a
device absent from the snapshot has no device-gauge series. -/
theorem c2_reset_before_repopulate (m1 m2 : Metrics) (s2 : UnifiData) (t : List String) :
    collect m1 s2 = collect m2 s2 ∧
    ((∀ dev ∈ s2.devices.all, deviceGaugeKey dev ≠ t) →
      lookupVal (collect m1 s2).deviceTemp t = none ∧
      lookupVal (collect m1 s2).deviceCPU t = none ∧
      lookupVal (collect m1 s2).deviceMem t = none) := by
  constructor
  · rw [collect_eq, collect_eq]; rfl
  · intro h
    have hkey : ∀ (f : UnifiDevice → ℚ) (e : List String × ℚ),
        e ∈ gaugeEntries f s2.devices.all → e.1 ≠ t := by
      intro f e he
      rcases mem_gaugeEntries_elim he with ⟨d, hd, rfl⟩
      exact h d hd
    refine ⟨?_, ?_, ?_⟩
    · rw [collect_deviceTemp, lookupVal_setEntries_of_ne _ _ _ (hkey _)]; rfl
    · rw [collect_deviceCPU, lookupVal_setEntries_of_ne _ _ _ (hkey _)]; rfl
    · rw [collect_deviceMem, lookupVal_setEntries_of_ne _ _ _ (hkey _)]; rfl

/-- Device present only in the earlier snapshot. -/
def c2OldUap : UAP :=
  { name := "uap-old", siteName := "default", ip := "192.168.1.9",
    model := "U6-Lite", systemStats := { cpu := ⟨5, "5"⟩, mem := ⟨6, "6"⟩ } }

/-- The earlier metric state: whatever the previous snapshot populated. -/
def c2Stale : Metrics :=
  collect (resetAll ⟨[], [], [], [], [], [], [], [], [], [], [], [],
    [], [], [], [], [], [], [], [], [], []⟩)
    { sites := [], devices := ⟨[], [], [], [c2OldUap]⟩, clients := [] }

/-- A later snapshot lacking that device. -/
def c2Snap2 : UnifiData := { sites := [], devices := ⟨[], [], [], []⟩, clients := [] }

theorem c2_reset_before_repopulate_witness :
    lookupVal (collect c2Stale c2Snap2).deviceTemp
      ["U6-Lite", "default", "192.168.1.9", "uap-old"] = none :=
  (c2_reset_before_repopulate c2Stale c2Stale c2Snap2
    ["U6-Lite", "default", "192.168.1.9", "uap-old"]).2 (by decide) |>.1

/-- C4: USG and UAP adapters report no temperature (`HasTemperature`
false, `Temperature` 0), and `Collect` still emits a temperature series
valued 0 for them; an access point with CPU 10 and memory 20 yields
series CPU = 10, memory = 20, temperature = 0. -/
theorem c4_temperatureless_families :
    (∀ g : USG, UnifiDevice.hasTemperature (UnifiDevice.usg g) = false ∧
      UnifiDevice.temperature (UnifiDevice.usg g) = 0) ∧
    (∀ a : UAP, UnifiDevice.hasTemperature (UnifiDevice.uap a) = false ∧
      UnifiDevice.temperature (UnifiDevice.uap a) = 0) ∧
    (∀ (m : Metrics) (a : UAP) (sites : List USite) (cls : List UClient),
      a.systemStats.cpu.val = 10 → a.systemStats.mem.val = 20 →
      lookupVal (collect m ⟨sites, ⟨[], [], [], [a]⟩, cls⟩).deviceCPU
          [a.model, a.siteName, a.ip, a.name] = some 10 ∧
      lookupVal (collect m ⟨sites, ⟨[], [], [], [a]⟩, cls⟩).deviceMem
          [a.model, a.siteName, a.ip, a.name] = some 20 ∧
      lookupVal (collect m ⟨sites, ⟨[], [], [], [a]⟩, cls⟩).deviceTemp
          [a.model, a.siteName, a.ip, a.name] = some 0) := by
  refine ⟨fun g => ⟨rfl, rfl⟩, fun a => ⟨rfl, rfl⟩, ?_⟩
  intro m a sites cls hcpu hmem
  refine ⟨?_, ?_, ?_⟩
  · rw [collect_deviceCPU]
    simp [UnifiDevices.all, gaugeEntries, setEntries, setVal, lookupVal, deviceGaugeKey,
      UnifiDevice.cpuUsage, uapCPUUsage, UnifiDevice.model, UnifiDevice.site,
      UnifiDevice.ip, UnifiDevice.name, hcpu]
  · rw [collect_deviceMem]
    simp [UnifiDevices.all, gaugeEntries, setEntries, setVal, lookupVal, deviceGaugeKey,
      UnifiDevice.memUsage, uapMEMUsage, UnifiDevice.model, UnifiDevice.site,
      UnifiDevice.ip, UnifiDevice.name, hmem]
  · rw [collect_deviceTemp]
    simp [UnifiDevices.all, gaugeEntries, setEntries, setVal, lookupVal, deviceGaugeKey,
      UnifiDevice.temperature, UnifiDevice.model, UnifiDevice.site,
      UnifiDevice.ip, UnifiDevice.name]

/-- The access point of the spec's example. -/
def c4Uap : UAP :=
  { name := "uap-1", siteName := "default", ip := "192.168.1.2",
    model := "U6-Lite", systemStats := { cpu := ⟨10, "10"⟩, mem := ⟨20, "20"⟩ } }

def c4Empty : Metrics :=
  ⟨[], [], [], [], [], [], [], [], [], [], [], [], [], [], [], [], [], [], [], [], [], []⟩

theorem c4_temperatureless_families_witness :
    lookupVal (collect c4Empty ⟨[], ⟨[], [], [], [c4Uap]⟩, []⟩).deviceCPU
      ["U6-Lite", "default", "192.168.1.2", "uap-1"] = some 10 ∧
    lookupVal (collect c4Empty ⟨[], ⟨[], [], [], [c4Uap]⟩, []⟩).deviceMem
      ["U6-Lite", "default", "192.168.1.2", "uap-1"] = some 20 ∧
    lookupVal (collect c4Empty ⟨[], ⟨[], [], [], [c4Uap]⟩, []⟩).deviceTemp
      ["U6-Lite", "default", "192.168.1.2", "uap-1"] = some 0 := by
  have h := (c4_temperatureless_families.2.2) c4Empty c4Uap [] [] rfl rfl
  simpa [c4Uap] using h

/-- C7: for every port of a USW or UDM device in the snapshot (port
label tuples assumed distinct, as they are on a real controller), the
SFP-temperature series exists iff the port's `SFPFound` flag is set,
and carries the reported SFP temperature; all other per-port series
exist regardless of the flag and carry the port's readings. -/
theorem c7_sfp_gating (m : Metrics) (s : UnifiData) (d : UnifiDevice) (p : UPort)
    (hnd : ((portOccs s.devices.all).map fun dp => portKey dp.1 dp.2).Nodup)
    (hmem : (d, p) ∈ portOccs s.devices.all) :
    (lookupVal (collect m s).pSFPTemp (portKey d p) =
      if p.sfpFound.val then some p.sfpTemperature.val else none) ∧
    lookupVal (collect m s).pRXPackets (portKey d p) = some p.rxPackets.val ∧
    lookupVal (collect m s).pRXBytes (portKey d p) = some p.rxBytes.val ∧
    lookupVal (collect m s).pRXErrors (portKey d p) = some p.rxErrors.val ∧
    lookupVal (collect m s).pRXDropped (portKey d p) = some p.rxDropped.val ∧
    lookupVal (collect m s).pSpeed (portKey d p) = some p.speed.val ∧
    lookupVal (collect m s).pTXPackets (portKey d p) = some p.txPackets.val ∧
    lookupVal (collect m s).pTXBytes (portKey d p) = some p.txBytes.val ∧
    lookupVal (collect m s).pTXErrors (portKey d p) = some p.txErrors.val ∧
    lookupVal (collect m s).pTXDropped (portKey d p) = some p.txDropped.val := by
  have hcnt : ∀ f : UPort → ℚ,
      lookupVal (addEntries [] (portEntries f s.devices.all)) (portKey d p) = some (f p) := by
    intro f
    rw [addEntries_nil_eq (portEntries_keys_nodup hnd)]
    exact lookupVal_of_mem_nodup (portEntries_keys_nodup hnd) (mem_portEntries_intro f hmem)
  have hset : ∀ f : UPort → ℚ,
      lookupVal (setEntries [] (portEntries f s.devices.all)) (portKey d p) = some (f p) := by
    intro f
    rw [setEntries_nil_eq (portEntries_keys_nodup hnd)]
    exact lookupVal_of_mem_nodup (portEntries_keys_nodup hnd) (mem_portEntries_intro f hmem)
  have hsfp : lookupVal (setEntries [] (sfpEntries s.devices.all)) (portKey d p) =
      if p.sfpFound.val then some p.sfpTemperature.val else none := by
    by_cases hf : p.sfpFound.val
    · rw [if_pos hf, setEntries_nil_eq (sfpEntries_keys_nodup hnd)]
      exact lookupVal_of_mem_nodup (sfpEntries_keys_nodup hnd) (mem_sfpEntries_intro hmem hf)
    · rw [if_neg hf, lookupVal_setEntries_of_ne]
      · rfl
      · intro e he
        rcases mem_sfpEntries_elim he with ⟨d', p', hm', hf', rfl⟩
        intro heq
        have hinj := List.inj_on_of_nodup_map hnd hm' hmem heq
        injection hinj with h1 h2
        subst h2
        exact hf hf'
  refine ⟨?_, ?_, ?_, ?_, ?_, ?_, ?_, ?_, ?_, ?_⟩
  · rw [collect_pSFPTemp]; exact hsfp
  · rw [collect_pRXPackets]; exact hcnt _
  · rw [collect_pRXBytes]; exact hcnt _
  · rw [collect_pRXErrors]; exact hcnt _
  · rw [collect_pRXDropped]; exact hcnt _
  · rw [collect_pSpeed]; exact hset _
  · rw [collect_pTXPackets]; exact hcnt _
  · rw [collect_pTXBytes]; exact hcnt _
  · rw [collect_pTXErrors]; exact hcnt _
  · rw [collect_pTXDropped]; exact hcnt _

/-- A port with an SFP module detected. -/
def c7PortSfp : UPort :=
  { name := "Port 1", portIdx := ⟨1, "1"⟩, up := ⟨true, "true"⟩,
    isUplink := ⟨false, "false"⟩,
    rxPackets := ⟨100, "100"⟩, rxBytes := ⟨1000, "1000"⟩, rxErrors := ⟨0, "0"⟩,
    rxDropped := ⟨2, "2"⟩, speed := ⟨1000, "1000"⟩, txPackets := ⟨50, "50"⟩,
    txBytes := ⟨500, "500"⟩, txErrors := ⟨1, "1"⟩, txDropped := ⟨0, "0"⟩,
    sfpFound := ⟨true, "true"⟩, sfpTemperature := ⟨42, "42"⟩ }

/-- A port without an SFP module. -/
def c7PortNoSfp : UPort :=
  { name := "Port 2", portIdx := ⟨2, "2"⟩, up := ⟨true, "true"⟩,
    isUplink := ⟨false, "false"⟩,
    rxPackets := ⟨103, "103"⟩, rxBytes := ⟨1003, "1003"⟩, rxErrors := ⟨0, "0"⟩,
    rxDropped := ⟨0, "0"⟩, speed := ⟨100, "100"⟩, txPackets := ⟨53, "53"⟩,
    txBytes := ⟨503, "503"⟩, txErrors := ⟨0, "0"⟩, txDropped := ⟨0, "0"⟩,
    sfpFound := ⟨false, "false"⟩, sfpTemperature := ⟨0, "0"⟩ }

def c7Usw : USW :=
  { name := "sw-1", siteName := "default", ip := "192.168.1.3",
    hasTemperature := ⟨true, "true"⟩, generalTemperature := ⟨35, "35"⟩,
    model := "USW-24",
    systemStats := { cpu := ⟨1, "1"⟩, mem := ⟨2, "2"⟩ },
    stat := ⟨⟨1, "1"⟩, ⟨2, "2"⟩, ⟨3, "3"⟩, ⟨4, "4"⟩, ⟨5, "5"⟩, ⟨6, "6"⟩, ⟨7, "7"⟩, ⟨8, "8"⟩, ⟨9, "9"⟩⟩,
    portTable := [c7PortSfp, c7PortNoSfp] }

def c7Snap : UnifiData := { sites := [], devices := ⟨[], [], [c7Usw], []⟩, clients := [] }

def c7Empty : Metrics :=
  ⟨[], [], [], [], [], [], [], [], [], [], [], [], [], [], [], [], [], [], [], [], [], []⟩

theorem c7_sfp_gating_witness :
    lookupVal (collect c7Empty c7Snap).pSFPTemp
      (portKey (UnifiDevice.usw c7Usw) c7PortSfp) = some 42 ∧
    lookupVal (collect c7Empty c7Snap).pSFPTemp
      (portKey (UnifiDevice.usw c7Usw) c7PortNoSfp) = none ∧
    lookupVal (collect c7Empty c7Snap).pRXPackets
      (portKey (UnifiDevice.usw c7Usw) c7PortNoSfp) = some 103 := by
  have h1 := c7_sfp_gating c7Empty c7Snap (UnifiDevice.usw c7Usw) c7PortSfp
    (by decide) (by decide)
  have h2 := c7_sfp_gating c7Empty c7Snap (UnifiDevice.usw c7Usw) c7PortNoSfp
    (by decide) (by decide)
  refine ⟨?_, ?_, ?_⟩
  · simpa [c7PortSfp] using h1.1
  · simpa [c7PortNoSfp] using h2.1
  · simpa [c7PortNoSfp] using h2.2.1

/-- C9: each device contributes exactly one series per base gauge,
keyed by its `{Model, site, IP, name}` tuple with its adapter readings,
and each port of a USW or UDM contributes exactly one series per port
counter and the speed gauge, keyed by the device's `{Type, site, IP,
name}` tuple extended with `{port name, index, up, uplink}` (tuples
assumed distinct). -/
theorem c9_series_per_device (m : Metrics) (s : UnifiData)
    (hg : (s.devices.all.map deviceGaugeKey).Nodup)
    (hp : ((portOccs s.devices.all).map fun dp => portKey dp.1 dp.2).Nodup) :
    (collect m s).deviceTemp = gaugeEntries UnifiDevice.temperature s.devices.all ∧
    (collect m s).deviceCPU = gaugeEntries UnifiDevice.cpuUsage s.devices.all ∧
    (collect m s).deviceMem = gaugeEntries UnifiDevice.memUsage s.devices.all ∧
    (∀ dev ∈ s.devices.all,
      lookupVal (collect m s).deviceTemp (deviceGaugeKey dev) = some dev.temperature ∧
      lookupVal (collect m s).deviceCPU (deviceGaugeKey dev) = some dev.cpuUsage ∧
      lookupVal (collect m s).deviceMem (deviceGaugeKey dev) = some dev.memUsage) ∧
    (collect m s).pRXPackets = portEntries (fun p => p.rxPackets.val) s.devices.all ∧
    (collect m s).pRXBytes = portEntries (fun p => p.rxBytes.val) s.devices.all ∧
    (collect m s).pRXErrors = portEntries (fun p => p.rxErrors.val) s.devices.all ∧
    (collect m s).pRXDropped = portEntries (fun p => p.rxDropped.val) s.devices.all ∧
    (collect m s).pSpeed = portEntries (fun p => p.speed.val) s.devices.all ∧
    (collect m s).pTXPackets = portEntries (fun p => p.txPackets.val) s.devices.all ∧
    (collect m s).pTXBytes = portEntries (fun p => p.txBytes.val) s.devices.all ∧
    (collect m s).pTXErrors = portEntries (fun p => p.txErrors.val) s.devices.all ∧
    (collect m s).pTXDropped = portEntries (fun p => p.txDropped.val) s.devices.all ∧
    (∀ dp ∈ portOccs s.devices.all,
      lookupVal (collect m s).pRXPackets (portKey dp.1 dp.2) = some dp.2.rxPackets.val) := by
  refine ⟨?_, ?_, ?_, ?_, ?_, ?_, ?_, ?_, ?_, ?_, ?_, ?_, ?_, ?_⟩
  · rw [collect_deviceTemp]; exact setEntries_nil_eq (gaugeEntries_keys_nodup hg)
  · rw [collect_deviceCPU]; exact setEntries_nil_eq (gaugeEntries_keys_nodup hg)
  · rw [collect_deviceMem]; exact setEntries_nil_eq (gaugeEntries_keys_nodup hg)
  · intro dev hdev
    refine ⟨?_, ?_, ?_⟩
    · rw [collect_deviceTemp, setEntries_nil_eq (gaugeEntries_keys_nodup hg)]
      exact lookupVal_of_mem_nodup (gaugeEntries_keys_nodup hg)
        (mem_gaugeEntries_intro _ hdev)
    · rw [collect_deviceCPU, setEntries_nil_eq (gaugeEntries_keys_nodup hg)]
      exact lookupVal_of_mem_nodup (gaugeEntries_keys_nodup hg)
        (mem_gaugeEntries_intro _ hdev)
    · rw [collect_deviceMem, setEntries_nil_eq (gaugeEntries_keys_nodup hg)]
      exact lookupVal_of_mem_nodup (gaugeEntries_keys_nodup hg)
        (mem_gaugeEntries_intro _ hdev)
  · rw [collect_pRXPackets]; exact addEntries_nil_eq (portEntries_keys_nodup hp)
  · rw [collect_pRXBytes]; exact addEntries_nil_eq (portEntries_keys_nodup hp)
  · rw [collect_pRXErrors]; exact addEntries_nil_eq (portEntries_keys_nodup hp)
  · rw [collect_pRXDropped]; exact addEntries_nil_eq (portEntries_keys_nodup hp)
  · rw [collect_pSpeed]; exact setEntries_nil_eq (portEntries_keys_nodup hp)
  · rw [collect_pTXPackets]; exact addEntries_nil_eq (portEntries_keys_nodup hp)
  · rw [collect_pTXBytes]; exact addEntries_nil_eq (portEntries_keys_nodup hp)
  · rw [collect_pTXErrors]; exact addEntries_nil_eq (portEntries_keys_nodup hp)
  · rw [collect_pTXDropped]; exact addEntries_nil_eq (portEntries_keys_nodup hp)
  · intro dp hdp
    rcases dp with ⟨d, p⟩
    rw [collect_pRXPackets, addEntries_nil_eq (portEntries_keys_nodup hp)]
    exact lookupVal_of_mem_nodup (portEntries_keys_nodup hp)
      (mem_portEntries_intro _ hdp)

def c9Port : UPort :=
  { name := "Port 1", portIdx := ⟨1, "1"⟩, up := ⟨true, "true"⟩,
    isUplink := ⟨true, "true"⟩,
    rxPackets := ⟨7, "7"⟩, rxBytes := ⟨70, "70"⟩, rxErrors := ⟨0, "0"⟩,
    rxDropped := ⟨0, "0"⟩, speed := ⟨1000, "1000"⟩, txPackets := ⟨8, "8"⟩,
    txBytes := ⟨80, "80"⟩, txErrors := ⟨0, "0"⟩, txDropped := ⟨0, "0"⟩,
    sfpFound := ⟨false, "false"⟩, sfpTemperature := ⟨0, "0"⟩ }

def c9Usw : USW :=
  { name := "sw-9", siteName := "default", ip := "192.168.1.9",
    hasTemperature := ⟨true, "true"⟩, generalTemperature := ⟨31, "31"⟩,
    model := "USW-Lite-8",
    systemStats := { cpu := ⟨3, "3"⟩, mem := ⟨4, "4"⟩ },
    stat := ⟨⟨1, "1"⟩, ⟨2, "2"⟩, ⟨3, "3"⟩, ⟨4, "4"⟩, ⟨5, "5"⟩, ⟨6, "6"⟩, ⟨7, "7"⟩, ⟨8, "8"⟩, ⟨9, "9"⟩⟩,
    portTable := [c9Port] }

def c9Snap : UnifiData := { sites := [], devices := ⟨[], [], [c9Usw], []⟩, clients := [] }

def c9Empty : Metrics :=
  ⟨[], [], [], [], [], [], [], [], [], [], [], [], [], [], [], [], [], [], [], [], [], []⟩

theorem c9_series_per_device_witness :
    (collect c9Empty c9Snap).deviceTemp =
      gaugeEntries UnifiDevice.temperature c9Snap.devices.all ∧
    lookupVal (collect c9Empty c9Snap).deviceCPU
      (deviceGaugeKey (UnifiDevice.usw c9Usw)) = some 3 ∧
    lookupVal (collect c9Empty c9Snap).pRXPackets
      (portKey (UnifiDevice.usw c9Usw) c9Port) = some 7 := by
  have h := c9_series_per_device c9Empty c9Snap (by decide) (by decide)
  refine ⟨h.1, ?_, ?_⟩
  · have := (h.2.2.2.1 (UnifiDevice.usw c9Usw) (by decide)).2.1
    simpa [UnifiDevice.cpuUsage, uswCPUUsage, c9Usw] using this
  · have := h.2.2.2.2.2.2.2.2.2.2.2.2.2 (UnifiDevice.usw c9Usw, c9Port) (by decide)
    simpa [c9Port] using this

/-- C10: the device gauges are keyed under the device's `Model()` as
first label value while the switch-level and port-level series are
keyed under its family tag `Type()`, so the two groups of series for a
single device live under different first-label values whenever the two
strings differ. -/
theorem c10_first_label_value (m : Metrics) (s : UnifiData) (t : List String) :
    (∀ dev : UnifiDevice,
      deviceGaugeKey dev = dev.model :: [dev.site, dev.ip, dev.name] ∧
      devLabelValues dev = dev.typ :: [dev.site, dev.ip, dev.name] ∧
      (dev.model ≠ dev.typ → deviceGaugeKey dev ≠ devLabelValues dev)) ∧
    (lookupVal (collect m s).deviceTemp t ≠ none →
      ∃ dev ∈ s.devices.all, t = dev.model :: [dev.site, dev.ip, dev.name]) ∧
    (lookupVal (collect m s).deviceCPU t ≠ none →
      ∃ dev ∈ s.devices.all, t = dev.model :: [dev.site, dev.ip, dev.name]) ∧
    (lookupVal (collect m s).deviceMem t ≠ none →
      ∃ dev ∈ s.devices.all, t = dev.model :: [dev.site, dev.ip, dev.name]) ∧
    (lookupVal (collect m s).swBytes t ≠ none →
      ∃ u : USW, UnifiDevice.usw u ∈ s.devices.all ∧
        t = (UnifiDevice.usw u).typ ::
          [(UnifiDevice.usw u).site, (UnifiDevice.usw u).ip, (UnifiDevice.usw u).name]) ∧
    (lookupVal (collect m s).pRXPackets t ≠ none →
      ∃ dev ∈ s.devices.all, ∃ p ∈ devPorts dev,
        t = dev.typ :: ([dev.site, dev.ip, dev.name] ++ portSuffix p)) := by
  refine ⟨?_, ?_, ?_, ?_, ?_, ?_⟩
  · intro dev
    refine ⟨rfl, rfl, fun hne heq => ?_⟩
    simp only [deviceGaugeKey, devLabelValues, List.cons.injEq] at heq
    exact hne heq.1
  · intro hne
    by_contra hc
    push_neg at hc
    apply hne
    rw [collect_deviceTemp, lookupVal_setEntries_of_ne]
    · rfl
    · intro e he
      rcases mem_gaugeEntries_elim he with ⟨dd, hdd, rfl⟩
      exact fun heq => hc dd hdd heq.symm
  · intro hne
    by_contra hc
    push_neg at hc
    apply hne
    rw [collect_deviceCPU, lookupVal_setEntries_of_ne]
    · rfl
    · intro e he
      rcases mem_gaugeEntries_elim he with ⟨dd, hdd, rfl⟩
      exact fun heq => hc dd hdd heq.symm
  · intro hne
    by_contra hc
    push_neg at hc
    apply hne
    rw [collect_deviceMem, lookupVal_setEntries_of_ne]
    · rfl
    · intro e he
      rcases mem_gaugeEntries_elim he with ⟨dd, hdd, rfl⟩
      exact fun heq => hc dd hdd heq.symm
  · intro hne
    by_contra hc
    push_neg at hc
    apply hne
    rw [collect_swBytes, lookupVal_addEntries_of_ne]
    · rfl
    · intro e he
      rcases mem_swEntries_elim he with ⟨u, hu, rfl⟩
      exact fun heq => hc u hu heq.symm
  · intro hne
    by_contra hc
    push_neg at hc
    apply hne
    rw [collect_pRXPackets, lookupVal_addEntries_of_ne]
    · rfl
    · intro e he
      rcases mem_portEntries_elim he with ⟨d', p', hm', rfl⟩
      rcases mem_portOccs.mp hm' with ⟨hd', hp'⟩
      exact fun heq => hc d' hd' p' hp' heq.symm

def c10Usw : USW :=
  { name := "sw-10", siteName := "default", ip := "192.168.1.10",
    hasTemperature := ⟨true, "true"⟩, generalTemperature := ⟨30, "30"⟩,
    model := "USW-24-PoE",
    systemStats := { cpu := ⟨3, "3"⟩, mem := ⟨4, "4"⟩ },
    stat := ⟨⟨1, "1"⟩, ⟨2, "2"⟩, ⟨3, "3"⟩, ⟨4, "4"⟩, ⟨5, "5"⟩, ⟨6, "6"⟩, ⟨7, "7"⟩, ⟨8, "8"⟩, ⟨9, "9"⟩⟩,
    portTable := [] }

def c10Snap : UnifiData := { sites := [], devices := ⟨[], [], [c10Usw], []⟩, clients := [] }

def c10Empty : Metrics :=
  ⟨[], [], [], [], [], [], [], [], [], [], [], [], [], [], [], [], [], [], [], [], [], []⟩

theorem c10_first_label_value_witness :
    deviceGaugeKey (UnifiDevice.usw c10Usw) ≠ devLabelValues (UnifiDevice.usw c10Usw) ∧
    (∃ dev ∈ c10Snap.devices.all,
      (["USW-24-PoE", "default", "192.168.1.10", "sw-10"] : List String) =
        dev.model :: [dev.site, dev.ip, dev.name]) ∧
    (∃ u : USW, UnifiDevice.usw u ∈ c10Snap.devices.all ∧
      (["USW", "default", "192.168.1.10", "sw-10"] : List String) =
        (UnifiDevice.usw u).typ ::
          [(UnifiDevice.usw u).site, (UnifiDevice.usw u).ip, (UnifiDevice.usw u).name]) := by
  refine ⟨?_, ?_, ?_⟩
  · exact ((c10_first_label_value c10Empty c10Snap []).1 (UnifiDevice.usw c10Usw)).2.2
      (by decide)
  · exact (c10_first_label_value c10Empty c10Snap
      ["USW-24-PoE", "default", "192.168.1.10", "sw-10"]).2.1 (by decide)
  · exact (c10_first_label_value c10Empty c10Snap
      ["USW", "default", "192.168.1.10", "sw-10"]).2.2.2.2.1 (by decide)

end HomeLab
